import Mathlib

/-!
# EuroTempl core model verification

A shallow embedding of the EuroTempl backend core models
(`backend/core/models/{component,instance,connection,parameter,value}.py`)
and proofs of the behavioural claims about them.

Modelling conventions:
* JSON payloads (`JSONField` columns) are `JVal` trees; Python dicts become
  association lists of `(String × JVal)` pairs.
* PostGIS geometries are ring lists of integer `(x, y, z)` coordinate
  triples (the 25 mm grid makes coordinates integral) together with the
  GEOS validity flag.  `geometry.coords` is the ring list; `coords[0]` is
  the first ring.
* Python numbers inside parameter validation are exact rationals `ℚ`;
  Python `bool` is a subtype of `int`, which the numeric type checks below
  reproduce.
* Timestamps are integers (epoch micro-seconds); `auto_now`/`auto_now_add`
  columns are `Option Int`, `none` before the first insert.
* The database is an explicit list of rows passed to the operations that
  query it; `save` returns the new row list.  Validation failures are the
  `Except` error branch, mirroring raised `ValidationError`s.
-/

deriving instance DecidableEq for Except

namespace EuroTempl

/-- JSON values as stored in Django `JSONField` columns. -/
inductive JVal where
  | jNull : JVal
  | jBool (b : Bool) : JVal
  | jInt (n : Int) : JVal
  | jNum (q : ℚ) : JVal
  | jStr (s : String) : JVal
  | jObj (fields : List (String × JVal)) : JVal

/-- Python `dict.get`: first binding for a key, `none` when absent. -/
def lookupJ (fields : List (String × JVal)) (k : String) : Option JVal :=
  match fields with
  | [] => none
  | (k', v) :: rest => if k' = k then some v else lookupJ rest k

/-- `isinstance(value, bool)`. -/
def JVal.isBool : JVal → Bool
  | .jBool _ => true
  | _ => false

/-- `isinstance(value, int)`: Python `bool` is a subclass of `int`. -/
def JVal.isInt : JVal → Bool
  | .jInt _ => true
  | .jBool _ => true
  | _ => false

/-- `isinstance(value, (int, float))`: ints, floats and bools. -/
def JVal.isNumeric : JVal → Bool
  | .jInt _ => true
  | .jNum _ => true
  | .jBool _ => true
  | _ => false

/-- `isinstance(value, dict)`. -/
def JVal.isObj : JVal → Bool
  | .jObj _ => true
  | _ => false

/-- Numeric content of a Python number (`True == 1`, `False == 0`). -/
def JVal.toNum : JVal → Option ℚ
  | .jInt n => some (n : ℚ)
  | .jNum q => some q
  | .jBool b => some (if b then 1 else 0)
  | _ => none

/-- Python truthiness of a JSON value. -/
def JVal.truthy : JVal → Bool
  | .jNull => false
  | .jBool b => b
  | .jInt n => decide (n ≠ 0)
  | .jNum q => decide (q ≠ 0)
  | .jStr s => decide (s ≠ "")
  | .jObj fields => !fields.isEmpty

/-- A PostGIS 3-D geometry: `rings` is `geometry.coords`, the list of
coordinate rings, each a list of `(x, y, z)` triples; `isValid` is the
GEOS `geometry.valid` flag. -/
structure Geometry where
  rings : List (List (Int × Int × Int))
  isValid : Bool
deriving DecidableEq

/-- First ring of a geometry, `coords[0]`. -/
def Geometry.firstRing (g : Geometry) : List (Int × Int × Int) :=
  g.rings.headD []

/-- Error kinds raised by the validation code.  Each constructor stands for
one `raise` site (`ValidationError`/`ValueError` messages), plus the
interpreter-level errors the connection code can hit:
`relatedObjectDoesNotExist` for Django's forward foreign-key descriptor
raising `RelatedObjectDoesNotExist` (an `AttributeError` subclass) when a
non-nullable reference is absent, and `typeError` for comparing `None`
instance ids in `Connection.save`.  `nameError` (an unbound local read)
is part of the taxonomy so theorems can state that `Connection.clean`
never raises it, but no embedded path produces it. -/
inductive Err where
  | versionFormat
  | missingFunctionalProperties
  | geometryNot3D
  | invalidGeometry
  | misalignedGrid
  | classificationFormat
  | duplicateComponent
  | propertiesNotDict
  | temporalOrder
  | selfConnection
  | duplicateConnection
  | nameError
  | relatedObjectDoesNotExist
  | typeError
  | missingProperties (keys : List String)
  | emiNotBoolean
  | invalidStatus (s : String)
  | invalidChoice (field : String)
  | versionTooSmall
  | parameterRequired (pname : String)
  | mustBeNumeric (pname : String)
  | mustBeInteger (pname : String)
  | mustBeBoolean (pname : String)
  | mustBeDict (pname : String)
  | belowMin (pname : String)
  | aboveMax (pname : String)
  | stepViolation (pname : String)
  | valueIsNone
  | attributeError
  | unitNotSpecified
  | invalidUnit (expected : String)
  | recordedBeforeCreation
  | requiredValueMissing (pname : String)
deriving DecidableEq

/-- `_validate_grid_alignment`, shared verbatim by
`Component`, `ComponentInstance` (field `spatial_data`) and `Connection`
(field `spatial_relationship`): an absent geometry passes; otherwise every
`(x, y, z)` in the first ring must satisfy `x % 25 == 0` and `y % 25 == 0`
(`z` is not inspected), else `ValidationError` (misaligned grid). -/
def validateGridAlignment (g : Option Geometry) : Except Err Unit :=
  match g with
  | none => .ok ()
  | some geom =>
      if geom.firstRing.all (fun c => decide (c.1 % 25 = 0) && decide (c.2.1 % 25 = 0)) then
        .ok ()
      else
        .error .misalignedGrid

/-! ## Component (`backend/core/models/component.py`) -/

def isUpperAlpha (c : Char) : Bool := 'A' ≤ c && c ≤ 'Z'

def isDigitCh (c : Char) : Bool := '0' ≤ c && c ≤ '9'

/-- Consume exactly `n` characters satisfying `p`, returning the rest. -/
def takeExact (p : Char → Bool) : Nat → List Char → Option (List Char)
  | 0, cs => some cs
  | _ + 1, [] => none
  | n + 1, c :: cs => if p c then takeExact p n cs else none

/-- Consume one expected character. -/
def expectChar (ch : Char) : List Char → Option (List Char)
  | [] => none
  | c :: cs => if c = ch then some cs else none

/-- The optional classification suffix `(_[rv]\d+)?`. -/
def classificationSuffixOk : List Char → Bool
  | [] => true
  | '_' :: c :: ds => (c = 'r' || c = 'v') && !ds.isEmpty && ds.all isDigitCh
  | _ => false

/-- The `RegexValidator` on `Component.classification`:
`^ET_[A-Z]{3}_[A-Z]{4}_[A-Z]{3}_\d{3}(_[rv]\d+)?$`. -/
def classificationValid (s : String) : Bool :=
  let core : Option (List Char) := do
    let r ← expectChar 'E' s.toList
    let r ← expectChar 'T' r
    let r ← expectChar '_' r
    let r ← takeExact isUpperAlpha 3 r
    let r ← expectChar '_' r
    let r ← takeExact isUpperAlpha 4 r
    let r ← expectChar '_' r
    let r ← takeExact isUpperAlpha 3 r
    let r ← expectChar '_' r
    takeExact isDigitCh 3 r
  match core with
  | some rest => classificationSuffixOk rest
  | none => false

/-- A dot-separated numeric identifier of semantic versioning: digits only,
no leading zero (except `0` itself). -/
def numericIdentOk (t : List Char) : Bool :=
  match t with
  | [] => false
  | c :: cs => (c :: cs).all isDigitCh && (cs.isEmpty || c ≠ '0')

/-- Split a character list on `'.'` (Python `str.split('.')`). -/
def splitOnDot : List Char → List (List Char)
  | [] => [[]]
  | c :: cs =>
      if c = '.' then [] :: splitOnDot cs
      else
        match splitOnDot cs with
        | t :: ts => (c :: t) :: ts
        | [] => [[c]]

/-- Models `semver.VersionInfo.parse` (third-party `semver` library):
the version must be `MAJOR.MINOR.PATCH` with numeric identifiers.
Pre-release/build suffixes of the library's grammar are not exercised by
any claim and are left out. -/
def semverValid (s : String) : Bool :=
  match splitOnDot s.toList with
  | [ma, mi, pa] => numericIdentOk ma && numericIdentOk mi && numericIdentOk pa
  | _ => false

/-- Python `version.lstrip('v')`: drop every leading `'v'`. -/
def stripLeadingV (s : String) : String :=
  String.mk (s.toList.dropWhile (fun c => c = 'v'))

/-- Key membership in a JSON object (`prop in mapping`). -/
def hasKeyJ (fields : List (String × JVal)) (k : String) : Bool :=
  (lookupJ fields k).isSome

/-- A row of `et_component`. -/
structure Component where
  classification : String
  name : String
  version : String
  functional_properties : List (String × JVal)
  base_geometry : Option Geometry
  core_mission : String
  is_active : Bool

/-- `Component.clean`: semantic-version check, required
functional-properties keys, then (when a geometry is present) the 3-D
coordinate check and grid alignment. -/
def Component.clean (c : Component) : Except Err Unit := do
  if ¬ semverValid (stripLeadingV c.version) then throw Err.versionFormat
  if ¬ (hasKeyJ c.functional_properties "acoustic_rating" &&
        hasKeyJ c.functional_properties "emi_shield_level") then
    throw Err.missingFunctionalProperties
  match c.base_geometry with
  | some g =>
      if g.rings.isEmpty then throw Err.geometryNot3D
      validateGridAlignment (some g)
  | none => pure ()

/-- Django `full_clean` for `Component`: field validators (the
classification regex), then `clean`, then the `(classification, version)`
uniqueness constraint against the stored components. -/
def Component.full_clean (store : List Component) (c : Component) : Except Err Unit := do
  if ¬ classificationValid c.classification then throw Err.classificationFormat
  c.clean
  if store.any (fun c' => c'.classification = c.classification && c'.version = c.version) then
    throw Err.duplicateComponent

/-- `Component.save`: `full_clean` then persist. -/
def Component.save (store : List Component) (c : Component) : Except Err (List Component) := do
  Component.full_clean store c
  pure (store ++ [c])

/-! ## ComponentInstance (`backend/core/models/instance.py`) -/

/-- An axis-aligned bounding box (the PostGIS envelope). -/
structure BBox where
  xmin : Int
  xmax : Int
  ymin : Int
  ymax : Int
  zmin : Int
  zmax : Int
deriving DecidableEq

/-- All coordinates of a geometry, every ring flattened. -/
def Geometry.allCoords (g : Geometry) : List (Int × Int × Int) :=
  g.rings.flatten

/-- `geometry.envelope3d`: the 3-D axis-aligned envelope. -/
def envelope3d (g : Geometry) : BBox :=
  { xmin := (g.allCoords.map (·.1)).foldl min 0
    xmax := (g.allCoords.map (·.1)).foldl max 0
    ymin := (g.allCoords.map (·.2.1)).foldl min 0
    ymax := (g.allCoords.map (·.2.1)).foldl max 0
    zmin := (g.allCoords.map (·.2.2)).foldl min 0
    zmax := (g.allCoords.map (·.2.2)).foldl max 0 }

/-- `geometry.envelope`: the 2-D envelope (z collapsed to 0). -/
def envelope2d (g : Geometry) : BBox :=
  { envelope3d g with zmin := 0, zmax := 0 }

/-- The four lifecycle statuses shared by `ComponentStatus` and
`ConnectionStatus` (`planned`, `in_progress`, `complete`, `obsolete`). -/
def statusChoices : List String :=
  ["planned", "in_progress", "complete", "obsolete"]

/-- A row of `et_component_instance`.  The owning component is referenced
by its classification string (an opaque foreign key for the claims). -/
structure ComponentInstance where
  internal_id : Int
  component : String
  spatial_data : Option Geometry
  spatial_bbox : Option BBox
  instance_properties : JVal
  status : String
  version : Int
  created_at : Option Int
  modified_at : Option Int
  status_changed_at : Option Int

/-- `ComponentInstance._validate_spatial_integrity`: the geometry must be
present and GEOS-valid. -/
def ComponentInstance.validate_spatial_integrity (inst : ComponentInstance) : Except Err Unit :=
  match inst.spatial_data with
  | some g => if g.isValid then .ok () else .error Err.invalidGeometry
  | none => .error Err.invalidGeometry

/-- `ComponentInstance._validate_property_schema`: `instance_properties`
must be a dict. -/
def ComponentInstance.validate_property_schema (inst : ComponentInstance) : Except Err Unit :=
  if inst.instance_properties.isObj then .ok () else .error Err.propertiesNotDict

/-- `ComponentInstance._validate_temporal_consistency`: when both
timestamps are set, `modified_at` may not precede `created_at`. -/
def ComponentInstance.validate_temporal_consistency (inst : ComponentInstance) : Except Err Unit :=
  match inst.modified_at, inst.created_at with
  | some m, some c => if m < c then .error Err.temporalOrder else .ok ()
  | _, _ => .ok ()

/-- `ComponentInstance.clean`: the four validations in source order. -/
def ComponentInstance.clean (inst : ComponentInstance) : Except Err Unit := do
  inst.validate_spatial_integrity
  validateGridAlignment inst.spatial_data
  inst.validate_property_schema
  inst.validate_temporal_consistency

/-- Django `full_clean` for `ComponentInstance`: the field validators that
matter here (`MinValueValidator(1)` on `version`, the status choices),
then `clean`. -/
def ComponentInstance.full_clean (inst : ComponentInstance) : Except Err Unit := do
  if inst.version < 1 then throw Err.versionTooSmall
  if ¬ statusChoices.contains inst.status then throw (Err.invalidChoice "status")
  inst.clean

/-- Internal ids of the stored instances, in storage order. -/
def internalIds (store : List ComponentInstance) : List Int :=
  store.map (·.internal_id)

/-- Maximum of a list of ids, `none` on the empty list.  This is
`ComponentInstance.objects.all().order_by('-internal_id').first()`. -/
def maxAux (l : List Int) : Option Int :=
  l.foldl (fun acc v => some (acc.elim v (fun m => max m v))) none

/-- `(last_internal_id.internal_id + 1) if last_internal_id else 1`. -/
def nextInternalId (store : List ComponentInstance) : Int :=
  match maxAux (internalIds store) with
  | some m => m + 1
  | none => 1

/-- `ComponentInstance.save` on a first insert (`self._state.adding`):
`full_clean`, assign the next internal id from the current maximum,
compute the bounding box when absent, stamp the `auto_now`/`auto_now_add`
timestamps, and append the row.  (The source computes the box through a
nested `save(update_fields=...)` call; the net effect on the row is the
single insert modelled here.) -/
def saveNewInstance (store : List ComponentInstance) (inst : ComponentInstance) (now : Int) :
    Except Err (ComponentInstance × List ComponentInstance) :=
  match inst.full_clean with
  | .error e => .error e
  | .ok () =>
      let inst := { inst with internal_id := nextInternalId store }
      let inst :=
        if inst.spatial_bbox.isNone && inst.spatial_data.isSome then
          { inst with spatial_bbox := inst.spatial_data.map envelope3d }
        else inst
      let inst :=
        { inst with created_at := some now, modified_at := some now,
                    status_changed_at := some now }
      .ok (inst, store ++ [inst])

/-- `ComponentInstance.save` on an update of a persisted row
(`self._state.adding` is false): `full_clean`, keep the internal id, fill
the bounding box when absent, and refresh `modified_at`. -/
def saveExistingInstance (inst : ComponentInstance) (now : Int) :
    Except Err ComponentInstance :=
  match inst.full_clean with
  | .error e => .error e
  | .ok () =>
      let inst :=
        if inst.spatial_bbox.isNone && inst.spatial_data.isSome then
          { inst with spatial_bbox := inst.spatial_data.map envelope3d }
        else inst
      .ok { inst with modified_at := some now }

/-- `ComponentInstance.update_status`: reject a status outside the
`ComponentStatus` enum with `ValueError`, otherwise set `status`, stamp
`status_changed_at` with the current time and `save()`. -/
def ComponentInstance.update_status (inst : ComponentInstance) (new_status : String)
    (now : Int) : Except Err ComponentInstance :=
  if ¬ statusChoices.contains new_status then .error (Err.invalidStatus new_status)
  else
    saveExistingInstance
      { inst with status := new_status, status_changed_at := some now } now

/-- `Component.create_instance`: read the next internal id, then
`objects.create` an instance with the component's geometry, its 2-D
envelope as bounding box, properties `{"finish": "matte"}`, status
`planned` and version 1 (`objects.create` runs `save`, i.e. a first
insert). -/
def Component.create_instance (c : Component) (store : List ComponentInstance) (now : Int) :
    Except Err (ComponentInstance × List ComponentInstance) :=
  let inst : ComponentInstance :=
    { internal_id := nextInternalId store
      component := c.classification
      spatial_data := c.base_geometry
      spatial_bbox := c.base_geometry.map envelope2d
      instance_properties := .jObj [("finish", .jStr "matte")]
      status := "planned"
      version := 1
      created_at := none
      modified_at := none
      status_changed_at := none }
  saveNewInstance store inst now

/-! ## Connection (`backend/core/models/connection.py`) -/

/-- The `ConnectionType` enum values. -/
def connectionTypeChoices : List String :=
  ["bolted", "slotted", "welded", "screwed", "adhesive"]

/-- A row of `et_connection`.  `pk` abstracts the UUID primary key;
`instance_1`/`instance_2` hold the referenced instance ids (`none` when
the foreign key is unset). -/
structure Connection where
  pk : Nat
  instance_1 : Option Nat
  instance_2 : Option Nat
  connection_type : String
  connection_properties : JVal
  spatial_relationship : Option Geometry
  spatial_bbox : Option BBox
  is_structural : Bool
  status : String
  parent_connection : Option Nat
  created_at : Option Int
  modified_at : Option Int
  status_changed_at : Option Int

/-- The duplicate scan in `Connection.clean`:
`Connection.objects.filter((Q(instance_1=a) & Q(instance_2=b)) |
(Q(instance_1=b) & Q(instance_2=a))).exclude(pk=self.pk)`. -/
def duplicateScan (store : List Connection) (conn : Connection) : List Connection :=
  store.filter fun c =>
    decide ((c.instance_1 = conn.instance_1 ∧ c.instance_2 = conn.instance_2) ∨
            (c.instance_1 = conn.instance_2 ∧ c.instance_2 = conn.instance_1)) &&
    decide (c.pk ≠ conn.pk)

/-- `Connection._validate_spatial_integrity`. -/
def Connection.validate_spatial_integrity (conn : Connection) : Except Err Unit :=
  match conn.spatial_relationship with
  | some g => if g.isValid then .ok () else .error Err.invalidGeometry
  | none => .error Err.invalidGeometry

/-- The per-type required property keys of
`Connection._validate_property_schema` (screwed/adhesive require none). -/
def requiredProps (t : String) : Option (List String) :=
  if t = "bolted" then some ["fastener_type", "torque_spec"]
  else if t = "slotted" then some ["slot_size", "insertion_depth"]
  else if t = "welded" then some ["weld_type", "weld_length"]
  else none

/-- `Connection._validate_property_schema`: the properties must be a dict
and must contain the type's required keys. -/
def Connection.validate_property_schema (conn : Connection) : Except Err Unit :=
  match conn.connection_properties with
  | .jObj fields =>
      match requiredProps conn.connection_type with
      | some req =>
          let missing := req.filter (fun k => ¬ hasKeyJ fields k)
          if missing.isEmpty then .ok () else .error (Err.missingProperties missing)
      | none => .ok ()
  | _ => .error Err.propertiesNotDict

/-- `Connection._validate_emi_continuity`: when an `emi_shielding` key is
present its value must be a boolean.  (Reached only with dict properties;
on a non-dict the schema check has already raised.) -/
def Connection.validate_emi_continuity (conn : Connection) : Except Err Unit :=
  match conn.connection_properties with
  | .jObj fields =>
      match lookupJ fields "emi_shielding" with
      | some v => if v.isBool then .ok () else .error Err.emiNotBoolean
      | none => .ok ()
  | _ => .ok ()

/-- `Connection._validate_material_compatibility`: an empty stub. -/
def Connection.validate_material_compatibility (_conn : Connection) : Except Err Unit :=
  .ok ()

/-- `Connection._validate_temporal_consistency`. -/
def Connection.validate_temporal_consistency (conn : Connection) : Except Err Unit :=
  match conn.modified_at, conn.created_at with
  | some m, some c => if m < c then .error Err.temporalOrder else .ok ()
  | _, _ => .ok ()

/-- `Connection.clean`.  The local `existing` is assigned only inside the
`if self.instance_1 and self.instance_2:` block while the source reads
`existing.exists()` unconditionally right after it — but that read is
unreachable with `existing` unbound: `instance_1`/`instance_2` are
non-nullable foreign keys, and Django's forward descriptor raises
`RelatedObjectDoesNotExist` (an `AttributeError` subclass) at the
attribute access in the guard itself whenever a reference is absent, so
the guard never evaluates falsy.  The absent-reference path is therefore
`Err.relatedObjectDoesNotExist`, never `Err.nameError`. -/
def Connection.clean (store : List Connection) (conn : Connection) : Except Err Unit :=
  match conn.instance_1, conn.instance_2 with
  | some a, some b =>
      if a = b then .error Err.selfConnection
      else if ¬ (duplicateScan store conn).isEmpty then .error Err.duplicateConnection
      else do
        conn.validate_spatial_integrity
        validateGridAlignment conn.spatial_relationship
        conn.validate_property_schema
        conn.validate_emi_continuity
        Connection.validate_material_compatibility conn
        conn.validate_temporal_consistency
  | _, _ => .error Err.relatedObjectDoesNotExist

/-- Django `full_clean` for `Connection`: the choice validators on
`connection_type` and `status`, then `clean`. -/
def Connection.full_clean (store : List Connection) (conn : Connection) : Except Err Unit := do
  if ¬ connectionTypeChoices.contains conn.connection_type then
    throw (Err.invalidChoice "connection_type")
  if ¬ statusChoices.contains conn.status then throw (Err.invalidChoice "status")
  Connection.clean store conn

/-- The reordering at the top of `Connection.save`:
`if self.instance_1_id > self.instance_2_id: swap`.  Comparing unset
(`None`) ids raises `TypeError` in Python, modelled by `Err.typeError`. -/
def Connection.canonicalize (conn : Connection) : Except Err Connection :=
  match conn.instance_1, conn.instance_2 with
  | some a, some b =>
      if a > b then
        .ok { conn with instance_1 := some b, instance_2 := some a }
      else .ok conn
  | _, _ => .error Err.typeError

/-- `Connection.save` on a first insert: reorder the pair, `full_clean`
against the stored connections, fill the bounding box when absent, stamp
the timestamps and append the row. -/
def Connection.save (store : List Connection) (conn : Connection) (now : Int) :
    Except Err (Connection × List Connection) :=
  match Connection.canonicalize conn with
  | .error e => .error e
  | .ok conn =>
      match Connection.full_clean store conn with
      | .error e => .error e
      | .ok () =>
          let conn :=
            if conn.spatial_bbox.isNone && conn.spatial_relationship.isSome then
              { conn with spatial_bbox := conn.spatial_relationship.map envelope3d }
            else conn
          let conn :=
            { conn with created_at := some now, modified_at := some now,
                        status_changed_at := some now }
          .ok (conn, store ++ [conn])

/-- `Connection.save` on an update of a persisted row: same pipeline, the
row is rewritten rather than appended. -/
def Connection.saveUpdate (store : List Connection) (conn : Connection) (now : Int) :
    Except Err Connection :=
  match Connection.canonicalize conn with
  | .error e => .error e
  | .ok conn =>
      match Connection.full_clean store conn with
      | .error e => .error e
      | .ok () =>
          let conn :=
            if conn.spatial_bbox.isNone && conn.spatial_relationship.isSome then
              { conn with spatial_bbox := conn.spatial_relationship.map envelope3d }
            else conn
          .ok { conn with modified_at := some now }

/-- `Connection.update_status`: reject a status outside the
`ConnectionStatus` enum with `ValueError`, otherwise set `status`, stamp
`status_changed_at` and `save()`. -/
def Connection.update_status (store : List Connection) (conn : Connection)
    (new_status : String) (now : Int) : Except Err Connection :=
  if ¬ statusChoices.contains new_status then .error (Err.invalidStatus new_status)
  else
    Connection.saveUpdate store
      { conn with status := new_status, status_changed_at := some now } now

/-! ## Parameter (`backend/core/models/parameter.py`) -/

/-- Python `round`: banker's rounding (half to even). -/
def pyRound (q : ℚ) : Int :=
  let f := q.floor
  let frac := q - (f : ℚ)
  if frac < 1 / 2 then f
  else if 1 / 2 < frac then f + 1
  else if f % 2 = 0 then f else f + 1

/-- Absolute value on the rationals (Python `abs`). -/
def ratAbs (q : ℚ) : ℚ := if q < 0 then -q else q

/-- A row of `et_parameter`.  `units` is `none` for an absent/blank unit;
`valid_ranges` is the JSON mapping. -/
structure Parameter where
  name : String
  data_type : String
  units : Option String
  valid_ranges : List (String × JVal)
  is_required : Bool

/-- `dict.get(key)` on `valid_ranges` read as a number (`None` and absent
keys coincide, as with Python's `get`). -/
def Parameter.rangeGet (p : Parameter) (k : String) : Option ℚ :=
  match lookupJ p.valid_ranges k with
  | some v => v.toNum
  | none => none

/-- `Parameter._is_valid_step`: `(value - min)/step` must be within
`1e-10` of an integer, `min` defaulting to 0 when `None`. -/
def Parameter.is_valid_step (_p : Parameter) (value step : ℚ) (minVal : Option ℚ) : Bool :=
  let m := minVal.getD 0
  let stepsFromMin := (value - m) / step
  ratAbs ((pyRound stepsFromMin : ℚ) - stepsFromMin) < 1 / 10 ^ 10

/-- `Parameter.validate_value`: `None` only when not required; type check
per `data_type`; for numeric types with a non-empty `valid_ranges`, the
min/max bounds and the step rule.  Returns `True` on success, raises on
the first violation. -/
def Parameter.validate_value (p : Parameter) (value : JVal) : Except Err Bool := do
  match value with
  | .jNull =>
      if p.is_required then throw (Err.parameterRequired p.name)
      else return true
  | _ => pure ()
  if p.data_type = "float" then
    if ¬ value.isNumeric then throw (Err.mustBeNumeric p.name)
  else if p.data_type = "integer" then
    if ¬ value.isInt then throw (Err.mustBeInteger p.name)
  else if p.data_type = "boolean" then
    if ¬ value.isBool then throw (Err.mustBeBoolean p.name)
  else if p.data_type = "json" then
    if ¬ value.isObj then throw (Err.mustBeDict p.name)
  if (p.data_type = "float" || p.data_type = "integer") && ¬ p.valid_ranges.isEmpty then
    let v := (value.toNum).getD 0
    match p.rangeGet "min" with
    | some minv => if v < minv then throw (Err.belowMin p.name)
    | none => pure ()
    match p.rangeGet "max" with
    | some maxv => if maxv < v then throw (Err.aboveMax p.name)
    | none => pure ()
    match p.rangeGet "step" with
    | some step =>
        if ¬ p.is_valid_step v step (p.rangeGet "min") then
          throw (Err.stepViolation p.name)
    | none => pure ()
  return true

/-! ## ParameterValue (`backend/core/models/value.py`) -/

/-- A row of `et_parameter_value`.  The referenced parameter row and the
owning instance's creation timestamp are embedded directly. -/
structure ParameterValue where
  instance_created_at : Option Int
  parameter : Parameter
  value : JVal
  recorded_at : Option Int
  validation_status : String

/-- `ParameterValue._validate_temporal_integrity`: when both timestamps
are set, `recorded_at` may not precede the instance's `created_at`. -/
def ParameterValue.validate_temporal_integrity (pv : ParameterValue) : Except Err Unit :=
  match pv.recorded_at, pv.instance_created_at with
  | some r, some c => if r < c then .error Err.recordedBeforeCreation else .ok ()
  | _, _ => .ok ()

/-- `ParameterValue._validate_value_constraints`: a `None` payload is
rejected outside the `try` block (no status change); inside it, the
referenced parameter validates `value.get('value')` and, when the
parameter declares a unit, `value.get('unit')` must be a matching truthy
unit.  Any failure inside the `try` sets `validation_status = 'invalid'`
on the in-memory object before re-raising.  A non-dict payload hits
`AttributeError` on `.get`, caught by the generic handler
(`Err.attributeError`). -/
def ParameterValue.validate_value_constraints (pv : ParameterValue) :
    ParameterValue × Except Err Unit :=
  match pv.value with
  | .jNull => (pv, .error Err.valueIsNone)
  | .jObj fields =>
      let res : Except Err Unit := do
        let inner := (lookupJ fields "value").getD .jNull
        let _ ← pv.parameter.validate_value inner
        match pv.parameter.units with
        | some u =>
            let provided := (lookupJ fields "unit").getD .jNull
            if ¬ provided.truthy then throw Err.unitNotSpecified
            else
              match provided with
              | .jStr s => if s ≠ u then throw (Err.invalidUnit u)
              | _ => throw (Err.invalidUnit u)
        | none => pure ()
      match res with
      | .ok () => (pv, .ok ())
      | .error e => ({ pv with validation_status := "invalid" }, .error e)
  | _ => ({ pv with validation_status := "invalid" }, .error Err.attributeError)

/-- `ParameterValue._validate_required_parameter`: a required parameter
must have a non-`None` `value` entry in the payload. -/
def ParameterValue.validate_required_parameter (pv : ParameterValue) : Except Err Unit :=
  let missing : Bool :=
    match pv.value with
    | .jNull => true
    | .jObj fields =>
        match lookupJ fields "value" with
        | none => true
        | some .jNull => true
        | some _ => false
    | _ => false
  if pv.parameter.is_required && missing then
    .error (Err.requiredValueMissing pv.parameter.name)
  else .ok ()

/-- `ParameterValue.clean`: temporal integrity, value constraints (which
may mutate `validation_status`), then the required-parameter check.  The
possibly mutated in-memory object is returned alongside the outcome. -/
def ParameterValue.clean (pv : ParameterValue) : ParameterValue × Except Err Unit :=
  match pv.validate_temporal_integrity with
  | .error e => (pv, .error e)
  | .ok () =>
      match pv.validate_value_constraints with
      | (pv', .error e) => (pv', .error e)
      | (pv', .ok ()) => (pv', pv'.validate_required_parameter)

/-- `ParameterValue.validate_and_save`: `full_clean` (here `clean`); on
success set `validation_status = 'valid'` and persist, on
`ValidationError` set `validation_status = 'invalid'` on the in-memory
object and re-raise without persisting. -/
def ParameterValue.validate_and_save (store : List ParameterValue) (pv : ParameterValue) :
    ParameterValue × Except Err (List ParameterValue) :=
  match pv.clean with
  | (pv', .error e) => ({ pv' with validation_status := "invalid" }, .error e)
  | (pv', .ok ()) =>
      let pv'' := { pv' with validation_status := "valid" }
      (pv'', .ok (store ++ [pv'']))

end EuroTempl

namespace EuroTempl

/-- C1: grid-alignment validation succeeds iff every x and y ordinate of
the geometry's first ring is an exact integer multiple of 25; the second
conjunct shows a geometry whose z ordinates (13 and 7) are not multiples
of 25 but whose x, y ordinates are all multiples of 25 passes the check,
so z is never examined. -/
theorem grid_alignment_iff_xy_multiples_of_25 :
    (∀ g : Geometry, validateGridAlignment (some g) = .ok () ↔
        ∀ c ∈ g.firstRing, (25 : Int) ∣ c.1 ∧ (25 : Int) ∣ c.2.1) ∧
    validateGridAlignment
        (some { rings := [[(0, 25, 13), (50, 75, 7), (0, 25, 13)]], isValid := true }) =
      .ok () := by
  constructor
  · intro g
    show (if (g.firstRing.all fun c => decide (c.1 % 25 = 0) && decide (c.2.1 % 25 = 0)) = true
        then (Except.ok () : Except Err Unit) else Except.error Err.misalignedGrid) = Except.ok ()
      ↔ ∀ c ∈ g.firstRing, (25 : Int) ∣ c.1 ∧ (25 : Int) ∣ c.2.1
    rcases h : g.firstRing.all
        (fun c => decide (c.1 % 25 = 0) && decide (c.2.1 % 25 = 0)) with _ | _
    · rw [if_neg Bool.false_ne_true]
      constructor
      · intro hcontra
        exact Except.noConfusion hcontra
      · intro hall
        have htrue : g.firstRing.all
            (fun c => decide (c.1 % 25 = 0) && decide (c.2.1 % 25 = 0)) = true := by
          rw [List.all_eq_true]
          intro c hc
          rcases hall c hc with ⟨hx, hy⟩
          rw [Int.dvd_iff_emod_eq_zero] at hx hy
          simp [hx, hy]
        rw [h] at htrue
        exact absurd htrue Bool.false_ne_true
    · rw [if_pos rfl]
      constructor
      · intro _ c hc
        rw [List.all_eq_true] at h
        have hcp := h c hc
        simp only [Bool.and_eq_true, decide_eq_true_eq] at hcp
        exact ⟨Int.dvd_of_emod_eq_zero hcp.1, Int.dvd_of_emod_eq_zero hcp.2⟩
      · intro _
        rfl
  · rfl

unseal Rat.add Rat.mul Rat.inv Rat.sub

/-- The numeric parameter of the spec scenario: `float` type, unit `dB`,
`valid_ranges = {min: 0, max: 100, step: 0.1}`, not required. -/
def gainParameter : Parameter :=
  { name := "gain"
    data_type := "float"
    units := some "dB"
    valid_ranges := [("min", .jInt 0), ("max", .jInt 100), ("step", .jNum (1 / 10))]
    is_required := false }

/-- C6: against `min=0, max=100, step=0.1`, `validate_value` accepts
`50.0`; rejects `50.05` with the step rule (`(value - min)/step` within
`1e-10` of an integer, `min` defaulting to 0); rejects `-1` (below min)
and `101` (above max); and rejects `None` exactly when `is_required`. -/
theorem numeric_parameter_range_and_step_cases :
    Parameter.validate_value gainParameter (.jNum 50) = .ok true ∧
    Parameter.validate_value gainParameter (.jNum (1001 / 20)) =
      .error (Err.stepViolation "gain") ∧
    Parameter.validate_value gainParameter (.jInt (-1)) = .error (Err.belowMin "gain") ∧
    Parameter.validate_value gainParameter (.jInt 101) = .error (Err.aboveMax "gain") ∧
    Parameter.validate_value { gainParameter with is_required := true } .jNull =
      .error (Err.parameterRequired "gain") ∧
    Parameter.validate_value gainParameter .jNull = .ok true := by
  refine ⟨?_, ?_, ?_, ?_, ?_, ?_⟩ <;> decide

/-- The grid-aligned 25×25 square at z = 0 of the spec scenario. -/
def squareGeometry : Geometry :=
  { rings := [[(0, 0, 0), (25, 0, 0), (25, 25, 0), (0, 25, 0), (0, 0, 0)]]
    isValid := true }

/-- The component of the spec scenario: classification
`ET_AUD_PROC_AMP_001`, version `1.0.0`, functional properties with
`acoustic_rating` and `emi_shield_level`, grid-aligned square geometry. -/
def etComponent : Component :=
  { classification := "ET_AUD_PROC_AMP_001"
    name := "Amplify Signal"
    version := "1.0.0"
    functional_properties :=
      [("acoustic_rating", .jStr "A"), ("emi_shield_level", .jStr "2")]
    base_geometry := some squareGeometry
    core_mission := "Amplify audio signals"
    is_active := true }

/-- C9: creating the scenario component succeeds (validation passes and it
is persisted), and `create_instance()` on an empty instance store yields a
`ComponentInstance` with `internal_id = 1`, status `planned`, version 1
and instance properties exactly `{"finish": "matte"}`. -/
theorem create_component_and_instance_scenario :
    Component.save [] etComponent = .ok [etComponent] ∧
    (Component.create_instance etComponent [] 0).map
        (fun p => (p.1.internal_id, p.1.status, p.1.version, p.1.instance_properties)) =
      .ok (1, "planned", 1, .jObj [("finish", .jStr "matte")]) :=
  ⟨rfl, rfl⟩

/-- C8: a `ParameterValue` whose `recorded_at` precedes the owning
instance's `created_at` fails `clean` with the temporal-ordering error,
and `validate_and_save` rejects it without persisting (no row list is
produced, and the in-memory object is marked invalid). -/
theorem parameter_value_recorded_before_creation_rejected
    (pv : ParameterValue) (r c : Int)
    (hr : pv.recorded_at = some r) (hc : pv.instance_created_at = some c)
    (hrc : r < c) :
    pv.clean = (pv, .error Err.recordedBeforeCreation) ∧
    ∀ store, ParameterValue.validate_and_save store pv =
      ({ pv with validation_status := "invalid" }, .error Err.recordedBeforeCreation) := by
  have ht : pv.validate_temporal_integrity = .error Err.recordedBeforeCreation := by
    unfold ParameterValue.validate_temporal_integrity
    rw [hr, hc]
    show (if r < c then (Except.error Err.recordedBeforeCreation : Except Err Unit)
        else Except.ok ()) = Except.error Err.recordedBeforeCreation
    rw [if_pos hrc]
  have hclean : pv.clean = (pv, .error Err.recordedBeforeCreation) := by
    unfold ParameterValue.clean
    rw [ht]
  refine ⟨hclean, fun store => ?_⟩
  unfold ParameterValue.validate_and_save
  rw [hclean]

/-- A concrete value recorded one day (86400 s) before its instance's
creation. -/
def pvRecordedEarly : ParameterValue :=
  { instance_created_at := some 86400
    parameter := gainParameter
    value := .jObj [("value", .jNum 50), ("unit", .jStr "dB")]
    recorded_at := some 0
    validation_status := "pending" }

/-- Witness for C8 at the concrete one-day-early value. -/
theorem parameter_value_recorded_before_creation_rejected_witness :
    pvRecordedEarly.clean = (pvRecordedEarly, .error Err.recordedBeforeCreation) ∧
    ParameterValue.validate_and_save [] pvRecordedEarly =
      ({ pvRecordedEarly with validation_status := "invalid" },
        .error Err.recordedBeforeCreation) := by
  have h := parameter_value_recorded_before_creation_rejected
    pvRecordedEarly 0 86400 rfl rfl (by decide)
  exact ⟨h.1, h.2 []⟩

/-- C5: whenever `clean` on a `ParameterValue` fails, `validate_and_save`
returns the rejected in-memory object with `validation_status` set to
`"invalid"` and re-raises the error; no row list is produced, so the
record is not persisted. -/
theorem parameter_value_invalid_status_observable
    (store : List ParameterValue) (pv pv' : ParameterValue) (e : Err)
    (h : pv.clean = (pv', .error e)) :
    ParameterValue.validate_and_save store pv =
      ({ pv' with validation_status := "invalid" }, .error e) ∧
    (ParameterValue.validate_and_save store pv).1.validation_status = "invalid" := by
  have hmain : ParameterValue.validate_and_save store pv =
      ({ pv' with validation_status := "invalid" }, .error e) := by
    unfold ParameterValue.validate_and_save
    rw [h]
  exact ⟨hmain, by rw [hmain]⟩

/-- A value for `gainParameter` missing the mandatory unit. -/
def pvMissingUnit : ParameterValue :=
  { instance_created_at := some 0
    parameter := gainParameter
    value := .jObj [("value", .jNum 50)]
    recorded_at := some 10
    validation_status := "pending" }

/-- Witness for C5 at a concrete unit-validation failure. -/
theorem parameter_value_invalid_status_observable_witness :
    ParameterValue.validate_and_save [] pvMissingUnit =
      ({ pvMissingUnit with validation_status := "invalid" },
        .error Err.unitNotSpecified) ∧
    (ParameterValue.validate_and_save [] pvMissingUnit).1.validation_status = "invalid" :=
  parameter_value_invalid_status_observable []
    pvMissingUnit { pvMissingUnit with validation_status := "invalid" }
    Err.unitNotSpecified rfl

/-- A connection record with both instance references unset. -/
def connNoInstances : Connection :=
  { pk := 7
    instance_1 := none
    instance_2 := none
    connection_type := "bolted"
    connection_properties := .jObj []
    spatial_relationship := some squareGeometry
    spatial_bbox := none
    is_structural := false
    status := "planned"
    parent_connection := none
    created_at := none
    modified_at := none
    status_changed_at := none }

/-- C10: counterexample.  Validating a connection whose instance
references are absent does not raise `NameError`: the non-nullable
foreign-key descriptor raises `RelatedObjectDoesNotExist` at the guard's
attribute access itself, so the unbound-`existing` read after the guard is
never reached. -/
theorem connection_clean_nameerror_refuted :
    Connection.clean [] connNoInstances = .error Err.relatedObjectDoesNotExist ∧
    Connection.clean [] connNoInstances ≠ .error Err.nameError :=
  ⟨rfl, by decide⟩

/-- C10 (amended): if a `Connection` is validated while either instance
reference (`instance_1` or `instance_2`) is absent, `clean` raises the
unhandled `RelatedObjectDoesNotExist` (an `AttributeError` subclass) from
the foreign-key attribute access in its guard, rather than a validation
error; the unconditional read of the duplicate-scan local `existing` after
the guard stays unreachable with `existing` unbound, so no `NameError`
occurs. -/
theorem connection_clean_attribute_error_when_instance_absent
    (store : List Connection) (conn : Connection)
    (h : conn.instance_1 = none ∨ conn.instance_2 = none) :
    Connection.clean store conn = .error Err.relatedObjectDoesNotExist := by
  unfold Connection.clean
  rcases h with h | h
  · rw [h]
  · rw [h]
    cases conn.instance_1 <;> rfl

/-- Witness for the amended C10 at a concrete connection without
instances. -/
theorem connection_clean_attribute_error_when_instance_absent_witness :
    Connection.clean [] connNoInstances = .error Err.relatedObjectDoesNotExist :=
  connection_clean_attribute_error_when_instance_absent [] connNoInstances (Or.inl rfl)

/-- Helper: `clean` fails with the duplicate error whenever some stored
connection matches the validated pair in either orientation. -/
theorem clean_duplicate_of_mem
    (store : List Connection) (conn c0 : Connection) (x y : Nat)
    (hx : conn.instance_1 = some x) (hy : conn.instance_2 = some y) (hxy : x ≠ y)
    (hmem : c0 ∈ store)
    (hor : (c0.instance_1 = conn.instance_1 ∧ c0.instance_2 = conn.instance_2) ∨
           (c0.instance_1 = conn.instance_2 ∧ c0.instance_2 = conn.instance_1))
    (hpk : c0.pk ≠ conn.pk) :
    Connection.clean store conn = .error Err.duplicateConnection := by
  have hmemscan : c0 ∈ duplicateScan store conn := by
    refine List.mem_filter.mpr ⟨hmem, ?_⟩
    simp only [Bool.and_eq_true, decide_eq_true_eq]
    exact ⟨hor, hpk⟩
  have hne : (duplicateScan store conn).isEmpty = false := by
    cases hd : duplicateScan store conn with
    | nil => rw [hd] at hmemscan; cases hmemscan
    | cons hd tl => rfl
  unfold Connection.clean
  rw [hx, hy]
  show (if x = y then (.error Err.selfConnection : Except Err Unit)
      else if ¬ (duplicateScan store conn).isEmpty then .error Err.duplicateConnection
      else do
        conn.validate_spatial_integrity
        validateGridAlignment conn.spatial_relationship
        conn.validate_property_schema
        conn.validate_emi_continuity
        Connection.validate_material_compatibility conn
        conn.validate_temporal_consistency) = .error Err.duplicateConnection
  rw [if_neg hxy, if_pos (by rw [hne]; exact Bool.false_ne_true)]

/-- Helper: `save` reorders nothing when the pair is already canonical. -/
theorem canonicalize_no_swap (c : Connection) (x y : Nat)
    (h1 : c.instance_1 = some x) (h2 : c.instance_2 = some y) (hxy : ¬ x > y) :
    Connection.canonicalize c = .ok c := by
  unfold Connection.canonicalize
  rw [h1, h2]
  dsimp only
  rw [if_neg hxy]

/-- Helper: `save` swaps the instance references when supplied in
descending id order. -/
theorem canonicalize_swap (c : Connection) (x y : Nat)
    (h1 : c.instance_1 = some x) (h2 : c.instance_2 = some y) (hxy : x > y) :
    Connection.canonicalize c =
      .ok { c with instance_1 := some y, instance_2 := some x } := by
  unfold Connection.canonicalize
  rw [h1, h2]
  dsimp only
  rw [if_pos hxy]

/-- Helper: with valid choice fields, `full_clean` propagates a `clean`
failure. -/
theorem full_clean_error_of_clean
    (store : List Connection) (c : Connection) (e : Err)
    (htype : connectionTypeChoices.contains c.connection_type = true)
    (hstatus : statusChoices.contains c.status = true)
    (hclean : Connection.clean store c = .error e) :
    Connection.full_clean store c = .error e := by
  unfold Connection.full_clean
  rw [htype, hstatus, hclean]
  rfl

/-- Helper: `save` propagates a `full_clean` failure on the reordered
connection. -/
theorem save_error_of_full_clean
    (store : List Connection) (c c' : Connection) (now : Int) (e : Err)
    (hcan : Connection.canonicalize c = .ok c')
    (hfc : Connection.full_clean store c' = .error e) :
    Connection.save store c now = .error e := by
  unfold Connection.save
  rw [hcan]
  dsimp only
  rw [hfc]

/-- C2: for two distinct instances that already have a stored connection,
saving a second connection for the same unordered pair — supplied in
either orientation — fails with the duplicate-connection validation error,
so the new row is never appended and the first connection stays the only
one stored. -/
theorem duplicate_connection_rejected
    (store : List Connection) (c0 c : Connection) (a b : Nat) (now : Int)
    (hmem : c0 ∈ store)
    (h0 : (c0.instance_1 = some a ∧ c0.instance_2 = some b) ∨
          (c0.instance_1 = some b ∧ c0.instance_2 = some a))
    (hab : a ≠ b) (hpk : c0.pk ≠ c.pk)
    (hc : (c.instance_1 = some a ∧ c.instance_2 = some b) ∨
          (c.instance_1 = some b ∧ c.instance_2 = some a))
    (htype : connectionTypeChoices.contains c.connection_type = true)
    (hstatus : statusChoices.contains c.status = true) :
    Connection.save store c now = .error Err.duplicateConnection := by
  rcases hc with ⟨h1, h2⟩ | ⟨h1, h2⟩
  · rcases Nat.lt_trichotomy a b with hlt | heq | hgt
    · refine save_error_of_full_clean store c c now _
        (canonicalize_no_swap c a b h1 h2 (by omega))
        (full_clean_error_of_clean store c _ htype hstatus ?_)
      refine clean_duplicate_of_mem store c c0 a b h1 h2 hab hmem ?_ hpk
      rw [h1, h2]
      exact h0
    · exact absurd heq hab
    · refine save_error_of_full_clean store c
        { c with instance_1 := some b, instance_2 := some a } now _
        (canonicalize_swap c a b h1 h2 hgt)
        (full_clean_error_of_clean store _ _ htype hstatus ?_)
      refine clean_duplicate_of_mem store _ c0 b a rfl rfl (Ne.symm hab) hmem ?_ hpk
      show (c0.instance_1 = some b ∧ c0.instance_2 = some a) ∨
        (c0.instance_1 = some a ∧ c0.instance_2 = some b)
      exact h0.symm
  · rcases Nat.lt_trichotomy a b with hlt | heq | hgt
    · refine save_error_of_full_clean store c
        { c with instance_1 := some a, instance_2 := some b } now _
        (canonicalize_swap c b a h1 h2 hlt)
        (full_clean_error_of_clean store _ _ htype hstatus ?_)
      refine clean_duplicate_of_mem store _ c0 a b rfl rfl hab hmem ?_ hpk
      show (c0.instance_1 = some a ∧ c0.instance_2 = some b) ∨
        (c0.instance_1 = some b ∧ c0.instance_2 = some a)
      exact h0
    · exact absurd heq hab
    · refine save_error_of_full_clean store c c now _
        (canonicalize_no_swap c b a h1 h2 (by omega))
        (full_clean_error_of_clean store c _ htype hstatus ?_)
      refine clean_duplicate_of_mem store c c0 b a h1 h2 (Ne.symm hab) hmem ?_ hpk
      rw [h1, h2]
      exact h0.symm

/-- Helper: swapping the two instance references does not change the
outcome of the reordering step at the top of `save`. -/
theorem canonicalize_swap_comm (conn : Connection) :
    Connection.canonicalize
      { conn with instance_1 := conn.instance_2, instance_2 := conn.instance_1 } =
      Connection.canonicalize conn := by
  obtain ⟨pk, i1, i2, ct, cp, sr, sb, istr, st, pc, ca, ma, sca⟩ := conn
  cases i1 with
  | none =>
      cases i2 with
      | none => rfl
      | some b => rfl
  | some a =>
      cases i2 with
      | none => rfl
      | some b =>
          unfold Connection.canonicalize
          dsimp only
          rcases Nat.lt_trichotomy a b with h | h | h
          · rw [if_pos (by omega), if_neg (by omega)]
          · subst h
            rfl
          · rw [if_neg (by omega), if_pos (by omega)]

/-- Helper: a successful `full_clean` means `clean` succeeded. -/
theorem full_clean_ok_clean (store : List Connection) (c : Connection)
    (h : Connection.full_clean store c = .ok ()) :
    Connection.clean store c = .ok () := by
  unfold Connection.full_clean at h
  cases hb1 : connectionTypeChoices.contains c.connection_type <;> rw [hb1] at h
  · exact Except.noConfusion h
  · cases hb2 : statusChoices.contains c.status <;> rw [hb2] at h
    · exact Except.noConfusion h
    · exact h

/-- Helper: the shape of a successful `save`: the persisted row keeps the
canonicalized instance references, passed `full_clean`, and is appended to
the store. -/
theorem save_ok_shape (store : List Connection) (conn c' : Connection)
    (s' : List Connection) (now : Int)
    (h : Connection.save store conn now = .ok (c', s')) :
    ∃ c0, Connection.canonicalize conn = .ok c0 ∧
      Connection.full_clean store c0 = .ok () ∧
      c'.instance_1 = c0.instance_1 ∧ c'.instance_2 = c0.instance_2 ∧
      s' = store ++ [c'] := by
  unfold Connection.save at h
  cases hcan : Connection.canonicalize conn with
  | error e =>
      rw [hcan] at h
      exact Except.noConfusion h
  | ok c0 =>
      rw [hcan] at h
      dsimp only at h
      cases hfc : Connection.full_clean store c0 with
      | error e =>
          rw [hfc] at h
          exact Except.noConfusion h
      | ok u =>
          cases u
          rw [hfc] at h
          dsimp only at h
          injection h with h2
          rw [Prod.mk.injEq] at h2
          obtain ⟨hf, hs⟩ := h2
          subst hf
          subst hs
          refine ⟨c0, rfl, hfc, ?_, ?_, rfl⟩ <;>
            by_cases hcond : (c0.spatial_bbox.isNone && c0.spatial_relationship.isSome) = true <;>
            simp [hcond]

/-- C3: saving a connection canonicalizes the instance pair.  First, the
outcome of `save` is the same whichever orientation the caller supplies.
Second, a successful `save` stores `instance_1 = min` and
`instance_2 = max` of the two ids and appends exactly that row.  Third,
when the two instance references are equal, validation fails with the
self-connection error. -/
theorem connection_pair_canonicalization :
    (∀ (store : List Connection) (conn : Connection) (now : Int),
      Connection.save store
          { conn with instance_1 := conn.instance_2, instance_2 := conn.instance_1 } now =
        Connection.save store conn now) ∧
    (∀ (store : List Connection) (conn c' : Connection) (s' : List Connection)
        (a b : Nat) (now : Int),
      conn.instance_1 = some a → conn.instance_2 = some b →
      Connection.save store conn now = .ok (c', s') →
      c'.instance_1 = some (min a b) ∧ c'.instance_2 = some (max a b) ∧
        s' = store ++ [c']) ∧
    (∀ (store : List Connection) (conn : Connection) (a : Nat) (now : Int),
      conn.instance_1 = some a → conn.instance_2 = some a →
      connectionTypeChoices.contains conn.connection_type = true →
      statusChoices.contains conn.status = true →
      Connection.save store conn now = .error Err.selfConnection) := by
  refine ⟨?_, ?_, ?_⟩
  · intro store conn now
    unfold Connection.save
    rw [canonicalize_swap_comm]
  · intro store conn c' s' a b now h1 h2 hsave
    obtain ⟨c0, hcan, hfc, hi1, hi2, hs⟩ := save_ok_shape store conn c' s' now hsave
    rcases Nat.lt_trichotomy a b with hlt | heq | hgt
    · rw [canonicalize_no_swap conn a b h1 h2 (by omega)] at hcan
      injection hcan with hc0
      subst hc0
      rw [min_eq_left (Nat.le_of_lt hlt), max_eq_right (Nat.le_of_lt hlt)]
      exact ⟨hi1.trans h1, hi2.trans h2, hs⟩
    · subst heq
      rw [canonicalize_no_swap conn a a h1 h2 (by omega)] at hcan
      injection hcan with hc0
      subst hc0
      have hcl := full_clean_ok_clean store conn hfc
      unfold Connection.clean at hcl
      rw [h1, h2] at hcl
      dsimp only at hcl
      rw [if_pos rfl] at hcl
      exact Except.noConfusion hcl
    · rw [canonicalize_swap conn a b h1 h2 hgt] at hcan
      injection hcan with hc0
      subst hc0
      rw [min_eq_right (Nat.le_of_lt hgt), max_eq_left (Nat.le_of_lt hgt)]
      refine ⟨?_, ?_, hs⟩
      · rw [hi1]
      · rw [hi2]
  · intro store conn a now h1 h2 htype hstatus
    refine save_error_of_full_clean store conn conn now _
      (canonicalize_no_swap conn a a h1 h2 (by omega))
      (full_clean_error_of_clean store conn _ htype hstatus ?_)
    unfold Connection.clean
    rw [h1, h2]
    dsimp only
    rw [if_pos rfl]

/-- A persisted connection between instances 1 and 2. -/
def connFirst : Connection :=
  { pk := 1
    instance_1 := some 1
    instance_2 := some 2
    connection_type := "screwed"
    connection_properties := .jObj []
    spatial_relationship := some squareGeometry
    spatial_bbox := none
    is_structural := false
    status := "planned"
    parent_connection := none
    created_at := none
    modified_at := none
    status_changed_at := none }

/-- Witness for C2: with `connFirst` stored, a second connection for the
pair (1,2) is rejected in both orientations. -/
theorem duplicate_connection_rejected_witness :
    Connection.save [connFirst] { connFirst with pk := 2 } 5 =
      .error Err.duplicateConnection ∧
    Connection.save [connFirst]
        { connFirst with pk := 2, instance_1 := some 2, instance_2 := some 1 } 5 =
      .error Err.duplicateConnection := by
  constructor
  · exact duplicate_connection_rejected [connFirst] connFirst _ 1 2 5
      (List.mem_singleton.mpr rfl) (Or.inl ⟨rfl, rfl⟩) (by decide) (by decide)
      (Or.inl ⟨rfl, rfl⟩) (by decide) (by decide)
  · exact duplicate_connection_rejected [connFirst] connFirst _ 1 2 5
      (List.mem_singleton.mpr rfl) (Or.inl ⟨rfl, rfl⟩) (by decide) (by decide)
      (Or.inr ⟨rfl, rfl⟩) (by decide) (by decide)

/-- Witness for C3: saving the pair supplied as (2,1) equals saving it as
(1,2); the stored row holds `(min, max)`; and a self-pair fails with the
self-connection error. -/
theorem connection_pair_canonicalization_witness :
    (Connection.save [] { connFirst with instance_1 := some 2, instance_2 := some 1 } 5 =
      Connection.save [] connFirst 5) ∧
    (∃ c' s', Connection.save []
        { connFirst with instance_1 := some 2, instance_2 := some 1 } 5 = .ok (c', s') ∧
      c'.instance_1 = some (min 2 1) ∧ c'.instance_2 = some (max 2 1) ∧
        s' = [] ++ [c']) ∧
    Connection.save [] { connFirst with instance_2 := some 1 } 5 =
      .error Err.selfConnection := by
  refine ⟨?_, ?_, ?_⟩
  · exact connection_pair_canonicalization.1 [] connFirst 5
  · refine ⟨_, _, rfl, ?_⟩
    exact connection_pair_canonicalization.2.1 []
      { connFirst with instance_1 := some 2, instance_2 := some 1 } _ _ 2 1 5 rfl rfl rfl
  · exact connection_pair_canonicalization.2.2 []
      { connFirst with instance_2 := some 1 } 1 5 rfl rfl (by decide) (by decide)

/-- Helper: `ComponentInstance.clean` reads neither `status` nor
`status_changed_at`. -/
theorem instance_clean_ignores_status (inst : ComponentInstance) (s : String)
    (t : Option Int) :
    ComponentInstance.clean { inst with status := s, status_changed_at := t } =
      inst.clean := by
  cases inst
  rfl

/-- Helper: `Connection.clean` reads neither `status` nor
`status_changed_at`. -/
theorem connection_clean_ignores_status (store : List Connection) (conn : Connection)
    (s : String) (t : Option Int) :
    Connection.clean store { conn with status := s, status_changed_at := t } =
      Connection.clean store conn := by
  cases conn
  rfl

/-- C4: `update_status` on an instance or a connection succeeds exactly
when the target status is one of the four enum values — any of the four is
accepted from any current status — setting `status` and stamping
`status_changed_at` with the current time; any other string is rejected
with the invalid-status error.  The success cases assume the entity itself
passes its own validation (true of any persisted row). -/
theorem lifecycle_status_transitions :
    (∀ (inst : ComponentInstance) (s : String) (now : Int),
      ¬ statusChoices.contains s = true →
      ComponentInstance.update_status inst s now = .error (Err.invalidStatus s)) ∧
    (∀ (inst : ComponentInstance) (s : String) (now : Int),
      1 ≤ inst.version → inst.clean = .ok () → statusChoices.contains s = true →
      ∃ r, ComponentInstance.update_status inst s now = .ok r ∧
        r.status = s ∧ r.status_changed_at = some now) ∧
    (∀ (store : List Connection) (conn : Connection) (s : String) (now : Int),
      ¬ statusChoices.contains s = true →
      Connection.update_status store conn s now = .error (Err.invalidStatus s)) ∧
    (∀ (store : List Connection) (conn : Connection) (s : String) (now : Int) (a b : Nat),
      conn.instance_1 = some a → conn.instance_2 = some b → ¬ a > b →
      connectionTypeChoices.contains conn.connection_type = true →
      Connection.clean store conn = .ok () → statusChoices.contains s = true →
      ∃ r, Connection.update_status store conn s now = .ok r ∧
        r.status = s ∧ r.status_changed_at = some now) := by
  refine ⟨?_, ?_, ?_, ?_⟩
  · intro inst s now h
    unfold ComponentInstance.update_status
    rw [if_pos h]
  · intro inst s now hv hc hs
    obtain ⟨iid, comp, sd, sb, props, st, ver, ca, ma, sca⟩ := inst
    dsimp only at hv
    have hcm : ComponentInstance.clean ⟨iid, comp, sd, sb, props, s, ver, ca, ma, some now⟩ =
        .ok () := by
      rw [instance_clean_ignores_status ⟨iid, comp, sd, sb, props, st, ver, ca, ma, sca⟩ s
        (some now)]
      exact hc
    have hfc : ComponentInstance.full_clean
        ⟨iid, comp, sd, sb, props, s, ver, ca, ma, some now⟩ = .ok () := by
      unfold ComponentInstance.full_clean
      dsimp only
      rw [if_neg (by omega), hs, hcm]
      rfl
    unfold ComponentInstance.update_status
    rw [if_neg (not_not_intro hs)]
    unfold saveExistingInstance
    dsimp only
    rw [hfc]
    dsimp only
    by_cases hcond : (sb.isNone && sd.isSome) = true
    · rw [if_pos hcond]
      exact ⟨_, rfl, rfl, rfl⟩
    · rw [if_neg hcond]
      exact ⟨_, rfl, rfl, rfl⟩
  · intro store conn s now h
    unfold Connection.update_status
    rw [if_pos h]
  · intro store conn s now a b h1 h2 hab htype hc hs
    obtain ⟨pk, i1, i2, ct, cp, sr, sb, istr, st, pc, ca, ma, sca⟩ := conn
    dsimp only at h1 h2 htype
    subst h1
    subst h2
    have hcm : Connection.clean store
        ⟨pk, some a, some b, ct, cp, sr, sb, istr, s, pc, ca, ma, some now⟩ = .ok () := by
      rw [connection_clean_ignores_status store
        ⟨pk, some a, some b, ct, cp, sr, sb, istr, st, pc, ca, ma, sca⟩ s (some now)]
      exact hc
    have hfc : Connection.full_clean store
        ⟨pk, some a, some b, ct, cp, sr, sb, istr, s, pc, ca, ma, some now⟩ = .ok () := by
      unfold Connection.full_clean
      dsimp only
      rw [htype, hs, hcm]
      rfl
    have hcan : Connection.canonicalize
        ⟨pk, some a, some b, ct, cp, sr, sb, istr, s, pc, ca, ma, some now⟩ =
        .ok ⟨pk, some a, some b, ct, cp, sr, sb, istr, s, pc, ca, ma, some now⟩ := by
      unfold Connection.canonicalize
      dsimp only
      rw [if_neg hab]
    unfold Connection.update_status
    rw [if_neg (not_not_intro hs)]
    unfold Connection.saveUpdate
    dsimp only
    rw [hcan]
    dsimp only
    rw [hfc]
    dsimp only
    by_cases hcond : (sb.isNone && sr.isSome) = true
    · rw [if_pos hcond]
      exact ⟨_, rfl, rfl, rfl⟩
    · rw [if_neg hcond]
      exact ⟨_, rfl, rfl, rfl⟩

/-- A stored instance that passes validation, used to exercise C4. -/
def instPlanned : ComponentInstance :=
  { internal_id := 1
    component := "ET_AUD_PROC_AMP_001"
    spatial_data := some squareGeometry
    spatial_bbox := none
    instance_properties := .jObj []
    status := "planned"
    version := 1
    created_at := some 0
    modified_at := some 0
    status_changed_at := some 0 }

/-- Witness for C4: a bogus status is rejected and a valid one applied,
for an instance and for a connection. -/
theorem lifecycle_status_transitions_witness :
    ComponentInstance.update_status instPlanned "finished" 9 =
      .error (Err.invalidStatus "finished") ∧
    (∃ r, ComponentInstance.update_status instPlanned "complete" 9 = .ok r ∧
      r.status = "complete" ∧ r.status_changed_at = some 9) ∧
    Connection.update_status [connFirst] connFirst "finished" 9 =
      .error (Err.invalidStatus "finished") ∧
    (∃ r, Connection.update_status [connFirst] connFirst "obsolete" 9 = .ok r ∧
      r.status = "obsolete" ∧ r.status_changed_at = some 9) := by
  refine ⟨?_, ?_, ?_, ?_⟩
  · exact lifecycle_status_transitions.1 instPlanned "finished" 9 (by decide)
  · exact lifecycle_status_transitions.2.1 instPlanned "complete" 9 (by decide)
      (by decide) (by decide)
  · exact lifecycle_status_transitions.2.2.1 [connFirst] connFirst "finished" 9 (by decide)
  · exact lifecycle_status_transitions.2.2.2 [connFirst] connFirst "obsolete" 9 1 2
      rfl rfl (by decide) (by decide) (by decide) (by decide)

/-- A sequence of insert attempts applied to an initially empty instance
store; a failed validation leaves the store unchanged. -/
def insertAll (attempts : List (ComponentInstance × Int)) : List ComponentInstance :=
  attempts.foldl
    (fun store p =>
      match saveNewInstance store p.1 p.2 with
      | .ok (_, s') => s'
      | .error _ => store) []

/-- The density invariant of C7: the stored internal ids are exactly
`1, 2, ..., n` in storage (creation) order. -/
def denseFrom1 (store : List ComponentInstance) : Prop :=
  internalIds store = (List.range' 1 store.length).map Int.ofNat

/-- Helper: `maxAux` over an appended element. -/
theorem maxAux_concat (l : List Int) (x : Int) :
    maxAux (l ++ [x]) = some ((maxAux l).elim x (fun m => max m x)) := by
  unfold maxAux
  rw [List.foldl_append]
  rfl

/-- Helper: the maximum of `1, ..., n`. -/
theorem maxAux_range (n : Nat) :
    maxAux ((List.range' 1 n).map Int.ofNat) =
      if n = 0 then none else some (n : Int) := by
  induction n with
  | zero => rfl
  | succ m ih =>
      rw [List.range'_1_concat, List.map_append]
      simp only [List.map_cons, List.map_nil]
      rw [maxAux_concat, ih]
      by_cases hm : m = 0
      · subst hm
        rfl
      · rw [if_neg hm, if_neg (Nat.succ_ne_zero m)]
        dsimp only [Option.elim]
        congr 1
        simp only [Int.ofNat_eq_coe]
        omega

/-- Helper: on a dense store the next internal id is the length plus 1. -/
theorem nextInternalId_dense (store : List ComponentInstance)
    (hd : denseFrom1 store) :
    nextInternalId store = (store.length : Int) + 1 := by
  unfold nextInternalId
  rw [hd, maxAux_range]
  by_cases hl : store.length = 0
  · rw [if_pos hl, hl]
    rfl
  · rw [if_neg hl]

/-- Helper: one insert attempt preserves the density invariant. -/
theorem saveNewInstance_preserves_dense (store : List ComponentInstance)
    (inst : ComponentInstance) (now : Int) (hd : denseFrom1 store) :
    denseFrom1 (match saveNewInstance store inst now with
      | .ok (_, s') => s'
      | .error _ => store) := by
  unfold saveNewInstance
  cases hfc : inst.full_clean with
  | error e => exact hd
  | ok u =>
      cases u
      dsimp only
      unfold denseFrom1 internalIds at hd ⊢
      rw [List.map_append]
      simp only [List.length_append, List.length_cons, List.length_nil, Nat.zero_add]
      rw [hd, List.range'_1_concat, List.map_append]
      congr 1
      simp only [List.map_cons, List.map_nil]
      congr 1
      by_cases hcond :
        ((({ inst with internal_id := nextInternalId store } : ComponentInstance).spatial_bbox.isNone &&
          ({ inst with internal_id := nextInternalId store } : ComponentInstance).spatial_data.isSome) = true)
      · rw [if_pos hcond]
        dsimp only
        rw [nextInternalId_dense store hd]
        simp only [Int.ofNat_eq_coe]
        omega
      · rw [if_neg hcond]
        dsimp only
        rw [nextInternalId_dense store hd]
        simp only [Int.ofNat_eq_coe]
        omega

/-- Helper: folding insert attempts from any dense store stays dense. -/
theorem insertAll_go_dense (attempts : List (ComponentInstance × Int))
    (store : List ComponentInstance) (hd : denseFrom1 store) :
    denseFrom1 (attempts.foldl
      (fun store p =>
        match saveNewInstance store p.1 p.2 with
        | .ok (_, s') => s'
        | .error _ => store) store) := by
  induction attempts generalizing store with
  | nil => exact hd
  | cons p rest ih =>
      rw [List.foldl_cons]
      exact ih _ (saveNewInstance_preserves_dense store p.1 p.2 hd)

/-- C7: across any sequence of instance creations starting from an empty
store, every insert assigns `internal_id` as the stored maximum plus one
(1 on an empty store), so the persisted internal ids are exactly the
dense, strictly increasing sequence `1, 2, 3, ...` in creation order. -/
theorem internal_ids_dense_increasing (attempts : List (ComponentInstance × Int)) :
    internalIds (insertAll attempts) =
      (List.range' 1 (insertAll attempts).length).map Int.ofNat :=
  insertAll_go_dense attempts [] rfl

/-- Witness for C7 on a concrete two-insert run. -/
theorem internal_ids_dense_increasing_witness :
    internalIds (insertAll [(instPlanned, 3), (instPlanned, 4)]) =
      (List.range' 1 (insertAll [(instPlanned, 3), (instPlanned, 4)]).length).map
        Int.ofNat :=
  internal_ids_dense_increasing [(instPlanned, 3), (instPlanned, 4)]

/-- Witness for C1 applied to the grid-aligned square. -/
theorem grid_alignment_iff_xy_multiples_of_25_witness :
    validateGridAlignment (some squareGeometry) = .ok () :=
  (grid_alignment_iff_xy_multiples_of_25.1 squareGeometry).mpr (by decide)

end EuroTempl

